import Mathlib

/-!
Verification of the packet-decoding and sample-reassembly logic of
`ble2lsl/devices/muse2016.py` (Muse 2016 headband interface).

The Python module is shallowly embedded: machine integers become `Nat`/`Int`,
Python strings become `List Char` (sequences of code points), byte buffers
become `List (Fin 256)`, numeric samples become `ℚ` (every constant involved
in the settled properties is a decimal rational, and the float operations the
code performs on them are exact), and Python exceptions become an explicit
error type threaded through an `Except`-like result.  Mutable handler state is
passed explicitly and the output callback is modelled by an emission list.
-/

set_option maxRecDepth 100000

namespace Muse2016

/-- Python exceptions that the embedded code paths can raise:
`keyError`/`keyErrorNat` for dict lookups with a missing string / integer key,
`readError` for `bitstring` running out of bits while unpacking,
`indexError` for subscripting an empty sequence,
`nameError` for referencing an unbound local variable
(`UnboundLocalError` is a `NameError` subclass),
`valueError` for `chr` out of range and for `ast.literal_eval` on
text that is not a valid literal. -/
inductive PyError where
  | keyError (k : String)
  | keyErrorNat (k : ℕ)
  | readError
  | indexError
  | nameError (v : String)
  | valueError
  deriving DecidableEq

/-- Result of running a fallible Python fragment. -/
inductive PyResult (α : Type) where
  | ok (a : α)
  | err (e : PyError)
  deriving DecidableEq

/-- A bit-field descriptor of a `bitstring` format token:
`uint:w` is `⟨w, false⟩`, `int:w` (two's complement) is `⟨w, true⟩`. -/
structure Field where
  width : ℕ
  signed : Bool
  deriving DecidableEq

/-- STREAMS (muse2016.py line 28). -/
def STREAMS : List String := ["eeg", "accelerometer", "gyroscope", "telemetry", "status"]

/-- Values stored in the top level of the PARAMS dict: strings and nested
tables (for the nested tables only their key sets matter here). -/
inductive PVal where
  | str (s : String)
  | table (keys : List String)
  deriving DecidableEq

/-- PARAMS (muse2016.py lines 35-85): a dict with exactly the four top-level
keys `manufacturer`, `name`, `streams` and `ble`; the per-stream tables
(`numpy_dtype`, `chunk_size`, ...) live one level down, under `streams`. -/
def PARAMS : List (String × PVal) :=
  [("manufacturer", .str "Interaxon"),
   ("name", .str "Muse"),
   ("streams", .table ["type", "channel_count", "nominal_srate", "channel_format",
                       "numpy_dtype", "units", "ch_names", "chunk_size"]),
   ("ble", .table ["address_type", "interval_min", "interval_max", "eeg",
                   "accelerometer", "gyroscope", "telemetry", "status", "send",
                   "stream_on", "stream_off"])]

/-- Python dict lookup `d[k]`: the value when the key is present, otherwise a
`KeyError` carrying the missing key. -/
def pyDictGet (d : List (String × PVal)) (k : String) : PyResult PVal :=
  match d.find? (fun p => p.1 = k) with
  | some p => .ok p.2
  | none => .err (.keyError k)

/-- HANDLE_NAMES (muse2016.py lines 88-90): stream name associated with each
packet handle; lookup on any other handle raises `KeyError(handle)`. -/
def HANDLE_NAMES (h : ℕ) : Option String :=
  if h = 14 then some "status"
  else if h = 26 then some "telemetry"
  else if h = 23 then some "accelerometer"
  else if h = 20 then some "gyroscope"
  else if h = 32 ∨ h = 35 ∨ h = 38 ∨ h = 41 ∨ h = 44 then some "eeg"
  else none

/-- PACKET_FORMATS (muse2016.py lines 93-97).  The eeg entry is written in the
source as `uint:16 + uint:12 * PARAMS[chunk_size]`; `chunk_size` is not a
top-level key of PARAMS (it sits under `streams`, with value 12 for eeg), so
the multiplier is taken as the evidently intended
`PARAMS[streams][chunk_size][eeg] = 12`.  The other four entries are literal:
`uint:16` then 9 × `int:16` for accelerometer and gyroscope, `uint:16` then
4 × `uint:16` for telemetry, and 20 × `uint:8` for status. -/
def PACKET_FORMATS (name : String) : List Field :=
  if name = "eeg" then ⟨16, false⟩ :: List.replicate 12 ⟨12, false⟩
  else if name = "accelerometer" then ⟨16, false⟩ :: List.replicate 9 ⟨16, true⟩
  else if name = "gyroscope" then ⟨16, false⟩ :: List.replicate 9 ⟨16, true⟩
  else if name = "telemetry" then ⟨16, false⟩ :: List.replicate 4 ⟨16, false⟩
  else List.replicate 20 ⟨8, false⟩

/-- CONVERT_FUNCS eeg entry (muse2016.py line 100): `0.48828125 * (data - 2048)`,
the scalar form applied element-wise by numpy broadcasting. -/
def convert_eeg (x : ℚ) : ℚ := 0.48828125 * (x - 2048)

/-- numpy `reshape((3, 3))` of a 9-element vector. -/
def reshape3x3 (l : List ℚ) : List (List ℚ) :=
  [l.take 3, (l.drop 3).take 3, (l.drop 6).take 3]

/-- CONVERT_FUNCS accelerometer entry (line 101): `0.0000610352 * data.reshape((3,3))`. -/
def convert_acc (l : List ℚ) : List (List ℚ) :=
  reshape3x3 (l.map (fun x => 0.0000610352 * x))

/-- CONVERT_FUNCS gyroscope entry (line 102): `0.0074768 * data.reshape((3,3))`. -/
def convert_gyr (l : List ℚ) : List (List ℚ) :=
  reshape3x3 (l.map (fun x => 0.0074768 * x))

/-- CONVERT_FUNCS telemetry entry (lines 103-105):
`np.array([data[0] / 512, 2.2 * data[1], data[2], data[3]])`, a 1-D array
(the telemetry format always supplies exactly 4 payload fields). -/
def convert_tlm (l : List ℚ) : List (List ℚ) :=
  [[l.getD 0 0 / 512, 2.2 * l.getD 1 0, l.getD 2 0, l.getD 3 0]]

/-- EEG_HANDLE_CH_IDXS (muse2016.py line 109). -/
def EEG_HANDLE_CH_IDXS (h : ℕ) : Option ℕ :=
  if h = 32 then some 0
  else if h = 35 then some 1
  else if h = 38 then some 2
  else if h = 41 then some 3
  else if h = 44 then some 4
  else none

/-- EEG_HANDLE_RECEIVE_ORDER (muse2016.py line 110). -/
def EEG_HANDLE_RECEIVE_ORDER : List ℕ := [44, 41, 38, 32, 35]

/-- Bits of one byte, most significant first, as `bitstring.Bits(bytes=...)`
lays them out. -/
def byteToBits (b : Fin 256) : List Bool :=
  [b.val / 128 % 2 == 1, b.val / 64 % 2 == 1, b.val / 32 % 2 == 1,
   b.val / 16 % 2 == 1, b.val / 8 % 2 == 1, b.val / 4 % 2 == 1,
   b.val / 2 % 2 == 1, b.val % 2 == 1]

/-- Bit sequence of a byte buffer (`bitstring.Bits(bytes=packet)`). -/
def bytesToBits (bs : List (Fin 256)) : List Bool :=
  (bs.map byteToBits).flatten

/-- Unsigned big-endian value of a bit sequence. -/
def bitsToNat (bits : List Bool) : ℕ :=
  bits.foldl (fun acc b => 2 * acc + (if b then 1 else 0)) 0

/-- Value of one format token read from `bits` (exactly `f.width` bits):
unsigned binary, or two's complement when the token is `int:w`. -/
def fieldValue (f : Field) (bits : List Bool) : ℤ :=
  let u := bitsToNat bits
  if f.signed then
    if 2 ^ (f.width - 1) ≤ u then (u : ℤ) - 2 ^ f.width else (u : ℤ)
  else (u : ℤ)

/-- Sequential field extraction of `bitstring.Bits.unpack`: each token consumes
its declared width from the front; running out of bits raises a read error;
bits left over after the last token are ignored (`unpack` performs no
exact-length check). -/
def readFields : List Field → List Bool → PyResult (List ℤ)
  | [], _ => .ok []
  | f :: fs, bits =>
    if f.width ≤ bits.length then
      match readFields fs (bits.drop f.width) with
      | .ok vs => .ok (fieldValue f (bits.take f.width) :: vs)
      | .err e => .err e
    else .err .readError

/-- The module-level function `_unpack` (muse2016.py lines 159-162):
`bitstring.Bits(bytes=packet).unpack(packet_format)`. -/
def unpackPacket (packet : List (Fin 256)) (fmt : List Field) : PyResult (List ℤ) :=
  readFields fmt (bytesToBits packet)

/-- Total bit width of a packet format (sum of its token widths). -/
def totalBits (fs : List Field) : ℕ := (fs.map Field.width).sum

/-- Mutable state of a `PacketHandler` instance.  Modelled from the spec:
the fields come from `BasePacketHandler.__init__` (ble2lsl/devices/device.py,
not part of the sources), which per the spec gives the handler a status text
accumulator (`self._message` is initialised in muse2016.py itself, line 120),
per-stream sample-index slots and per-stream chunk buffers, plus the
subscription set.  The eeg stream keeps one sample index and one chunk row per
channel-slot; the other numeric streams keep a scalar index and one matrix. -/
structure HandlerState where
  message : List Char
  statusSampleIdx : ℤ
  eegSampleIdxs : List ℤ
  eegChunk : List (List ℚ)
  accSampleIdx : ℤ
  accChunk : List (List ℚ)
  gyrSampleIdx : ℤ
  gyrChunk : List (List ℚ)
  tlmSampleIdx : ℤ
  tlmChunk : List (List ℚ)
  subscriptions : List String
  deriving DecidableEq

/-- Modelled from the spec: the freshly initialised state of a handler (empty
status accumulator, zeroed sample indices and chunk buffers) subscribed to the
given streams, as produced by `BasePacketHandler.__init__` (not in the
sources) followed by `PacketHandler.__init__` (muse2016.py lines 117-120). -/
def initState (subs : List String) : HandlerState where
  message := []
  statusSampleIdx := 0
  eegSampleIdxs := List.replicate 5 0
  eegChunk := List.replicate 5 (List.replicate 12 0)
  accSampleIdx := 0
  accChunk := List.replicate 3 (List.replicate 3 0)
  gyrSampleIdx := 0
  gyrChunk := List.replicate 3 (List.replicate 3 0)
  tlmSampleIdx := 0
  tlmChunk := [List.replicate 4 0]
  subscriptions := subs

/-- One invocation of the output callback `self._callback`:
an assembled eeg chunk with its per-slot sample indices, a single-source
numeric chunk, or a parsed status record. -/
inductive Emission where
  | chunk (name : String) (sampleIdxs : List ℤ) (payload : List (List ℚ))
  | single (name : String) (sampleIdx : ℤ) (payload : List (List ℚ))
  | statusRec (sampleIdx : ℤ) (record : List (String × ℤ))
  deriving DecidableEq

/-- Outcome of one handler call: normal return or a propagated exception,
together with the state after the call and the callback invocations it made. -/
abbrev PResult := PyResult Unit × HandlerState × List Emission

/-- Python `chr(i)` for the code points the handler can meet.  The status
stream carries `uint:8` fields only, so every value reaching `chr` in the
program is 0-255; we model all code points below the surrogate range
(on which `Char.ofNat` agrees with Python `chr`) and raise `ValueError`
otherwise, as `chr` does on a negative argument. -/
def pyChr (i : ℤ) : PyResult Char :=
  if 0 ≤ i ∧ i < 0xD800 then .ok (Char.ofNat i.toNat) else .err .valueError

/-- The list comprehension `[chr(i) for i in unpacked[1:]]`, evaluated left to
right, propagating the first failure. -/
def pyChrList : List ℤ → PyResult (List Char)
  | [] => .ok []
  | i :: is =>
    match pyChr i with
    | .err e => .err e
    | .ok c =>
      match pyChrList is with
      | .ok cs => .ok (c :: cs)
      | .err e => .err e

/-- Python slice `s[:n]` on a sequence: for `n ≥ 0` the first `n` elements
(clamped to the length), for `n < 0` everything but the last `-n` elements
(clamped to empty). -/
def pySliceTo (s : List Char) (n : ℤ) : List Char :=
  if 0 ≤ n then s.take n.toNat else s.take (s.length - (-n).toNat)

/-- The valid content of a status fragment `unpacked = n :: rest`:
`"".join([chr(i) for i in unpacked[1:]])[:unpacked[0]]`
(muse2016.py lines 149-150), for fragments whose character codes are in
`chr` range. -/
def fragContent : List ℤ → List Char
  | [] => []
  | n :: rest => pySliceTo (rest.map (fun i => Char.ofNat i.toNat)) n

/-- Skip ASCII space characters at the front of the text. -/
def skipSpaces : List Char → List Char
  | [] => []
  | c :: cs => if c = ' ' then skipSpaces cs else c :: cs

/-- Characters of a double-quoted key up to (not including) the closing quote,
with the remainder after the quote; fails when the quote never closes, and
conservatively fails on a backslash (which starts an escape sequence in a
Python string literal, not reproduced here) or a NUL byte (which the Python
tokenizer rejects outright). -/
def takeKeyChars : List Char → Option (List Char × List Char)
  | [] => none
  | c :: cs =>
    if c = '"' then some ([], cs)
    else if c = '\\' ∨ c = '\x00' then none
    else
      match takeKeyChars cs with
      | some (k, r) => some (c :: k, r)
      | none => none

/-- Longest run of decimal digits at the front, with the remainder. -/
def takeDigitChars : List Char → List Char × List Char
  | [] => ([], [])
  | c :: cs =>
    if c.isDigit then
      let (ds, r) := takeDigitChars cs
      (c :: ds, r)
    else ([], c :: cs)

/-- Numeric value of a digit run. -/
def digitsToNat (ds : List Char) : ℕ :=
  ds.foldl (fun acc c => 10 * acc + (c.toNat - 48)) 0

/-- A digit run forms a valid Python integer literal exactly when it is
nonempty and has no leading zero (Python rejects `01`; a single `0` is
fine). -/
def validDigits (ds : List Char) : Bool :=
  match ds with
  | [] => false
  | c :: rest => (c != '0') || rest.isEmpty

/-- An optionally negated decimal integer literal at the front of the text. -/
def parseInt (cs : List Char) : Option (ℤ × List Char) :=
  match cs with
  | '-' :: cs1 =>
    match takeDigitChars cs1 with
    | (ds, r) => if validDigits ds then some (-(digitsToNat ds : ℤ), r) else none
  | _ =>
    match takeDigitChars cs with
    | (ds, r) => if validDigits ds then some ((digitsToNat ds : ℤ), r) else none

/-- One `"key": value` entry of a status record. -/
def parseEntry (cs : List Char) : Option ((String × ℤ) × List Char) :=
  match skipSpaces cs with
  | '"' :: cs1 =>
    match takeKeyChars cs1 with
    | none => none
    | some (k, cs2) =>
      match skipSpaces cs2 with
      | ':' :: cs3 =>
        match parseInt (skipSpaces cs3) with
        | none => none
        | some (v, cs4) => some ((String.mk k, v), cs4)
      | _ => none
  | _ => none

/-- Comma-separated entries up to and including the closing brace; the fuel
argument (instantiated with the text length, an upper bound on the number of
entries) only serves termination. -/
def parseEntries : ℕ → List Char → Option (List (String × ℤ) × List Char)
  | 0, _ => none
  | fuel + 1, cs =>
    match parseEntry cs with
    | none => none
    | some (e, cs1) =>
      match skipSpaces cs1 with
      | ',' :: cs2 =>
        match parseEntries fuel cs2 with
        | none => none
        | some (es, r) => some (e :: es, r)
      | '}' :: cs2 => some ([e], cs2)
      | _ => none

/-- Executable stand-in for the external `ast.literal_eval`, covering the
sublanguage of brace-delimited, comma-separated records of double-quoted
escape-free string keys and plain decimal integer values.  On this
sublanguage it agrees with Python: every text it accepts is evaluated by
`ast.literal_eval` to the same record (the record is represented as the
literal's entry sequence), and it conservatively rejects the lexical forms
Python treats differently (escape sequences, NUL bytes, leading-zero
numerals).  The real `ast.literal_eval` also accepts shapes outside this
sublanguage (string, float and boolean values, single-quoted strings,
number keys, nesting, trailing commas), so `none` here does not mean the
real evaluator fails; for that reason no universal theorem constrains the
evaluator through this function — universal statements quantify over the
evaluator parameter of `processStatusWith`, and this model only instantiates
it at concrete inputs (where the agreement above is exact). -/
def literal_eval (cs : List Char) : Option (List (String × ℤ)) :=
  match skipSpaces cs with
  | '{' :: cs1 =>
    match skipSpaces cs1 with
    | '}' :: r => if skipSpaces r = [] then some [] else none
    | cs2 =>
      match parseEntries cs.length cs2 with
      | none => none
      | some (es, r) => if skipSpaces r = [] then some es else none
  | _ => none

/-- The method `PacketHandler._process_status` (muse2016.py lines 148-156),
parameterised by the behavior of the external evaluator `ast.literal_eval`,
on which the method's control flow depends only through success (a record)
or failure (an exception): `ev` stands for the evaluator composed with any
encoding of its result values into the record type, so every theorem proved
for all `ev` holds in particular of the actual evaluator.  Control flow of
the source: an empty `unpacked` raises `IndexError` at the subscript
`unpacked[0]`; the fragment content is appended to `self._message` before
the terminator check, so the `IndexError` on an empty fragment content
(`unpacked[0] == 0`) leaves the appended (empty) content in place; on a
terminating fragment the newline-stripped accumulated text is first written
back to `self._message`, then the evaluator runs: on success the record is
emitted with sample index -1 and the accumulator is cleared, on failure the
exception (`ValueError`/`SyntaxError`, one error constructor here)
propagates and the stripped accumulated text stays in the accumulator. -/
def processStatusWith (ev : List Char → Option (List (String × ℤ)))
    (unpacked : List ℤ) (st : HandlerState) : PResult :=
  match unpacked with
  | [] => (.err .indexError, st, [])
  | n :: rest =>
    match pyChrList rest with
    | .err e => (.err e, st, [])
    | .ok chars =>
      let frag := pySliceTo chars n
      let st1 : HandlerState := { st with message := st.message ++ frag }
      match frag.getLast? with
      | none => (.err .indexError, st1, [])
      | some c =>
        if c = '}' then
          let stripped := st1.message.filter (fun ch => ch != '\n')
          let st2 : HandlerState := { st1 with message := stripped }
          match ev stripped with
          | none => (.err .valueError, st2, [])
          | some record =>
            (.ok (), { st2 with message := [] }, [.statusRec (-1) record])
        else (.ok (), st1, [])

/-- The method `PacketHandler._process_status` with the executable evaluator
model instantiated, used for evaluation at concrete inputs. -/
def processStatus (unpacked : List ℤ) (st : HandlerState) : PResult :=
  processStatusWith literal_eval unpacked st

/-- The method `PacketHandler.process_packet` (muse2016.py lines 122-146).
Control flow of the source, line by line:
line 124 `HANDLE_NAMES[handle]` raises `KeyError(handle)` on an unmapped
handle; line 125 unpacks (a too-short buffer raises the bitstring read
error); lines 127-128 return silently when the stream is not subscribed;
lines 130-131 run `_process_status` on the status stream — and then fall
through to the non-eeg branch at lines 143-146, where
`self._sample_idxs[name] = unpacked[0]` runs and the right-hand side of
line 144 references the local `data`, never assigned on the status path,
raising `UnboundLocalError` (a `NameError`); on every other subscribed
stream line 133 evaluates `PARAMS["numpy_dtypes"]`, and since the only
top-level PARAMS keys are `manufacturer`, `name`, `streams` and `ble`
(the per-stream dtype table is `PARAMS["streams"]["numpy_dtype"]`), this
raises `KeyError("numpy_dtypes")` before any buffer write or callback.
The lines after the lookup are embedded as written (eeg slot write and
last-handle flush at lines 135-141, single-source emission at lines
143-146) even though the lookup error makes them unreachable.  Like
`processStatusWith`, the definition is parameterised by the evaluator
behavior `ev` handed down to `_process_status`. -/
def processPacketWith (ev : List Char → Option (List (String × ℤ)))
    (handle : ℕ) (packet : List (Fin 256)) (st : HandlerState) : PResult :=
  match HANDLE_NAMES handle with
  | none => (.err (.keyErrorNat handle), st, [])
  | some name =>
    match unpackPacket packet (PACKET_FORMATS name) with
    | .err e => (.err e, st, [])
    | .ok unpacked =>
      if name ∈ st.subscriptions then
        if name = "status" then
          match processStatusWith ev unpacked st with
          | (.err e, st1, ems) => (.err e, st1, ems)
          | (.ok _, st1, ems) =>
            let st2 : HandlerState := { st1 with statusSampleIdx := unpacked.headI }
            (.err (.nameError "data"), st2, ems)
        else
          match pyDictGet PARAMS "numpy_dtypes" with
          | .err e => (.err e, st, [])
          | .ok _ =>
            let data := (unpacked.drop 1).map (fun z => (z : ℚ))
            if name = "eeg" then
              match EEG_HANDLE_CH_IDXS handle with
              | none => (.err (.keyErrorNat handle), st, [])
              | some idx =>
                let st1 : HandlerState :=
                  { st with eegSampleIdxs := st.eegSampleIdxs.set idx unpacked.headI }
                let st2 : HandlerState :=
                  { st1 with eegChunk := st1.eegChunk.set idx (data.map convert_eeg) }
                if handle = EEG_HANDLE_RECEIVE_ORDER.getLastD 0 then
                  (.ok (), st2, [.chunk "eeg" st2.eegSampleIdxs st2.eegChunk])
                else (.ok (), st2, [])
            else if name = "accelerometer" then
              let c := convert_acc data
              (.ok (), { st with accSampleIdx := unpacked.headI, accChunk := c },
               [.single name unpacked.headI c])
            else if name = "gyroscope" then
              let c := convert_gyr data
              (.ok (), { st with gyrSampleIdx := unpacked.headI, gyrChunk := c },
               [.single name unpacked.headI c])
            else
              let c := convert_tlm data
              (.ok (), { st with tlmSampleIdx := unpacked.headI, tlmChunk := c },
               [.single name unpacked.headI c])
      else (.ok (), st, [])

/-- The method `PacketHandler.process_packet` with the executable evaluator
model instantiated, used for evaluation at concrete inputs. -/
def processPacket (handle : ℕ) (packet : List (Fin 256)) (st : HandlerState) : PResult :=
  processPacketWith literal_eval handle packet st

/-- A serial sequence of notifications, one `process_packet` call each (as the
transport delivers them); the states thread through and the callback
invocations of all calls are collected. -/
def processPackets (events : List (ℕ × List (Fin 256))) (st : HandlerState) :
    HandlerState × List Emission :=
  events.foldl
    (fun acc ev =>
      let r := processPacket ev.1 ev.2 acc.1
      (r.2.1, acc.2 ++ r.2.2))
    (st, [])

/-- A serial sequence of decoded status fragments fed to `_process_status`. -/
def processStatusSeq (frags : List (List ℤ)) (st : HandlerState) :
    HandlerState × List Emission :=
  frags.foldl
    (fun acc u =>
      let r := processStatus u acc.1
      (r.2.1, acc.2 ++ r.2.2))
    (st, [])

/-- A decoded status fragment that is well formed (nonempty, character codes
in `chr` range) and whose valid content does not end in the closing-brace
terminator. -/
def fragNoTerm (u : List ℤ) : Bool :=
  match u with
  | [] => false
  | _ :: rest =>
    decide ((∀ v ∈ rest, 0 ≤ v ∧ v < 0xD800) ∧
            fragContent u ≠ [] ∧ (fragContent u).getLastD ' ' ≠ '}')

/-- First status fragment of the record `\x7b"a": 1\x7d`: declared length 5,
characters `\x7b"a":` and zero padding (a status packet carries 19 character
fields). -/
def frag1 : List ℤ := [5, 123, 34, 97, 34, 58] ++ List.replicate 14 0

/-- Second status fragment of the record: declared length 3, characters
` 1\x7d` and zero padding. -/
def frag2 : List ℤ := [3, 32, 49, 125] ++ List.replicate 16 0

/-- One eeg notification per channel-slot, in the declared cycle order, each
with a well-formed 20-byte (160-bit) eeg packet. -/
def eegCycleEvents : List (ℕ × List (Fin 256)) :=
  EEG_HANDLE_RECEIVE_ORDER.map (fun h => (h, List.replicate 20 0))

/-- A well-formed 20-byte status packet: declared length 1, character `a`,
zero padding. -/
def statusPacket20 : List (Fin 256) := 1 :: 97 :: List.replicate 18 0

/-- A 21-byte status packet (one byte longer than the 160-bit status format):
declared length 1, character `a`, zero padding. -/
def statusPacketLong : List (Fin 256) := 1 :: 97 :: List.replicate 19 0

/-! ### Helper lemmas -/

/-- The character list comprehension succeeds on fragments whose codes are in
`chr` range and yields the corresponding characters. -/
lemma pyChrList_ok (is : List ℤ) (hv : ∀ v ∈ is, 0 ≤ v ∧ v < 0xD800) :
    pyChrList is = .ok (is.map (fun i => Char.ofNat i.toNat)) := by
  induction is with
  | nil => rfl
  | cons i is ih =>
    have hi := hv i (List.mem_cons_self i is)
    have hrest : ∀ v ∈ is, 0 ≤ v ∧ v < 0xD800 :=
      fun v hvmem => hv v (List.mem_cons_of_mem i hvmem)
    simp [pyChrList, pyChr, hi, ih hrest]

/-- A byte buffer supplies exactly eight bits per byte. -/
lemma length_bytesToBits (bs : List (Fin 256)) :
    (bytesToBits bs).length = 8 * bs.length := by
  induction bs with
  | nil => rfl
  | cons b bs ih =>
    have : bytesToBits (b :: bs) = byteToBits b ++ bytesToBits bs := rfl
    rw [this, List.length_append, ih]
    simp [byteToBits]
    ring

/-- Field extraction fails with the read error whenever the bit sequence is
shorter than the total declared width. -/
lemma readFields_short (fs : List Field) (bits : List Bool)
    (h : bits.length < totalBits fs) : readFields fs bits = .err .readError := by
  induction fs generalizing bits with
  | nil => simp [totalBits] at h
  | cons f fs ih =>
    by_cases hw : f.width ≤ bits.length
    · have hlt : (bits.drop f.width).length < totalBits fs := by
        rw [List.length_drop]
        simp only [totalBits, List.map_cons, List.sum_cons] at h ⊢
        omega
      simp [readFields, hw, ih _ hlt]
    · simp [readFields, hw]

/-- The PARAMS lookup at muse2016.py line 133 fails: `numpy_dtypes` is not a
top-level key of PARAMS. -/
lemma pyDictGet_numpy_dtypes :
    pyDictGet PARAMS "numpy_dtypes" = .err (.keyError "numpy_dtypes") := by decide

/-- A well-formed non-terminating fragment only appends its valid content to
the accumulator: no error, no emission, whatever the evaluator does (the
evaluator is never reached). -/
lemma processStatusWith_noterm (ev : List Char → Option (List (String × ℤ)))
    (u : List ℤ) (st : HandlerState) (h : fragNoTerm u = true) :
    processStatusWith ev u st
      = (.ok (), { st with message := st.message ++ fragContent u }, []) := by
  match u with
  | [] => simp [fragNoTerm] at h
  | n :: rest =>
    simp only [fragNoTerm] at h
    obtain ⟨hv, hne, hlast⟩ := of_decide_eq_true h
    have hchars := pyChrList_ok rest hv
    cases hgl : (fragContent (n :: rest)).getLast? with
    | none => exact absurd (List.getLast?_eq_none_iff.mp hgl) hne
    | some c =>
      have hcne : c ≠ '}' := by
        intro hc
        apply hlast
        rw [List.getLastD_eq_getLast?, hgl, hc]
        rfl
      simp only [processStatusWith, hchars]
      have hfrag : pySliceTo (rest.map (fun i => Char.ofNat i.toNat)) n
          = fragContent (n :: rest) := rfl
      rw [hfrag, hgl]
      simp [hcne]

/-- The non-terminating-fragment lemma for the instantiated assembler. -/
lemma processStatus_noterm (u : List ℤ) (st : HandlerState) (h : fragNoTerm u = true) :
    processStatus u st = (.ok (), { st with message := st.message ++ fragContent u }, []) :=
  processStatusWith_noterm literal_eval u st h

/-- Feeding any sequence of well-formed non-terminating fragments never
invokes the callback. -/
lemma seq_noterm (frags : List (List ℤ)) :
    ∀ (st : HandlerState) (ems : List Emission),
      (∀ u ∈ frags, fragNoTerm u = true) →
      (frags.foldl
        (fun acc u =>
          let r := processStatus u acc.1
          (r.2.1, acc.2 ++ r.2.2)) (st, ems)).2 = ems := by
  induction frags with
  | nil => intro st ems _; rfl
  | cons u us ih =>
    intro st ems h
    have hu : fragNoTerm u = true := h u (List.mem_cons_self u us)
    have hus : ∀ v ∈ us, fragNoTerm v = true :=
      fun v hvmem => h v (List.mem_cons_of_mem u hvmem)
    simp only [List.foldl_cons, processStatus_noterm u st hu, List.append_nil]
    exact ih _ _ hus

/-! ### Claims -/

/-- C1 (code evaluation at the failing input): feeding one notification per
eeg channel-slot in the declared cycle order `[44, 41, 38, 32, 35]`, each
with a well-formed 20-byte packet, to a handler subscribed to eeg yields
zero callback invocations and leaves the state unchanged, and already the
first notification fails with `KeyError("numpy_dtypes")` (muse2016.py line
133) — so the claimed single full-chunk emission never happens and no
channel-slot is ever written. -/
theorem C1_cycle_emits_nothing :
    processPackets eegCycleEvents (initState ["eeg"]) = (initState ["eeg"], []) ∧
    (processPacket 44 (List.replicate 20 0) (initState ["eeg"])).1
      = .err (.keyError "numpy_dtypes") :=
  ⟨by decide, by decide⟩

/-- C2 counterexample: a 21-byte buffer on the status source does not match
the 160-bit status format, yet processing does not fail with the decoder's
read error, and it mutates the handler state (the status accumulator and
sample-index slot change) — refuting the claim for over-long buffers. -/
theorem C2_counterexample :
    8 * statusPacketLong.length ≠ totalBits (PACKET_FORMATS "status") ∧
    (processPacket 14 statusPacketLong (initState ["status"])).1 ≠ .err .readError ∧
    (processPacket 14 statusPacketLong (initState ["status"])).2.1 ≠ initState ["status"] :=
  ⟨by decide, by decide, by decide⟩

/-- C2 (amended): for every stream and every raw byte buffer too short to
supply the total bit width of that stream's packet format, processing fails
with the decoder's read error, invokes the output callback zero times and
leaves all mutable state unchanged; a buffer longer than the format is not
rejected (its trailing bits are ignored). -/
theorem C2_short_buffer_fails (handle : ℕ) (name : String) (packet : List (Fin 256))
    (st : HandlerState) (h1 : HANDLE_NAMES handle = some name)
    (h2 : 8 * packet.length < totalBits (PACKET_FORMATS name)) :
    processPacket handle packet st = (.err .readError, st, []) := by
  have hu : unpackPacket packet (PACKET_FORMATS name) = .err .readError := by
    apply readFields_short
    rw [length_bytesToBits]
    exact h2
  simp only [processPacket, processPacketWith, h1, hu]

theorem C2_short_buffer_fails_witness :
    processPacket 14 [] (initState ["status"])
      = (.err .readError, initState ["status"], []) :=
  C2_short_buffer_fails 14 "status" [] (initState ["status"]) (by decide) (by decide)

/-- C3 counterexample: feeding the fragment with declared length 2 and
characters `x` `closing-brace` to a fresh assembler terminates the record
with text failing the key-value grammar; the call fails without invoking the
callback, but the accumulated buffer is retained as that text — not reset to
empty — refuting the discard part of the claim. -/
theorem C3_counterexample :
    processStatus [2, 120, 125] (initState ["status"])
      = (.err .valueError, { initState ["status"] with message := ['x', '}'] }, []) ∧
    ['x', '}'] ≠ ([] : List Char) :=
  ⟨by decide, by decide⟩

/-- C3 (amended): when a status fragment's appended content ends in the
closing-brace terminator and the evaluator fails on the accumulated text
(the text does not match the grammar), processing fails with the
literal-evaluation error and the output callback is not invoked, but the
accumulated status buffer is retained (newline-stripped) rather than
discarded.  The statement quantifies over every evaluator behavior `ev`, so
it holds in particular of the actual `ast.literal_eval` whatever its exact
domain: the hypothesis `ev ... = none` then reads exactly "the terminated
text makes `ast.literal_eval` raise". -/
theorem C3_parse_failure_retains_buffer (ev : List Char → Option (List (String × ℤ)))
    (n : ℤ) (rest : List ℤ) (st : HandlerState)
    (hv : ∀ v ∈ rest, 0 ≤ v ∧ v < 0xD800)
    (hterm : (fragContent (n :: rest)).getLast? = some '}')
    (hfail : ev
      ((st.message ++ fragContent (n :: rest)).filter (fun ch => ch != '\n')) = none) :
    processStatusWith ev (n :: rest) st =
      (.err .valueError,
       { st with message :=
           (st.message ++ fragContent (n :: rest)).filter (fun ch => ch != '\n') },
       []) := by
  simp only [processStatusWith, pyChrList_ok rest hv]
  have hfrag : pySliceTo (rest.map (fun i => Char.ofNat i.toNat)) n
      = fragContent (n :: rest) := rfl
  rw [hfrag, hterm]
  rw [List.filter_append] at hfail
  simp [hfail]

theorem C3_parse_failure_retains_buffer_witness :
    processStatus [2, 120, 125] (initState ["status"])
      = (.err .valueError, { initState ["status"] with message := ['x', '}'] }, []) := by
  have h := C3_parse_failure_retains_buffer literal_eval 2 [120, 125] (initState ["status"])
    (by decide) (by decide) (by decide)
  exact h.trans (by decide)

/-- C4: a notification whose source handle has no entry in HANDLE_NAMES
fails with the mapping lookup's `KeyError(handle)` — the unknown-source
failure, an ordinary recoverable per-event error value in this model —
invokes the output callback zero times and leaves the state unchanged. -/
theorem C4_unknown_source (handle : ℕ) (packet : List (Fin 256)) (st : HandlerState)
    (h : HANDLE_NAMES handle = none) :
    processPacket handle packet st = (.err (.keyErrorNat handle), st, []) := by
  simp only [processPacket, processPacketWith, h]

theorem C4_unknown_source_witness :
    processPacket 15 [] (initState STREAMS)
      = (.err (.keyErrorNat 15), initState STREAMS, []) :=
  C4_unknown_source 15 [] (initState STREAMS) (by decide)

/-- C5: on every subscribed stream other than status the output callback is
invoked zero times, and whenever the packet decodes, `process_packet` stops
with `KeyError("numpy_dtypes")` raised by the PARAMS lookup at muse2016.py
line 133 (the only top-level PARAMS keys are manufacturer, name, streams
and ble), leaving the state unchanged — hence no emission ever occurs on
the eeg, accelerometer, gyroscope, or telemetry streams. -/
theorem C5_numpy_dtypes_keyerror (handle : ℕ) (name : String) (packet : List (Fin 256))
    (st : HandlerState) (h1 : HANDLE_NAMES handle = some name)
    (h2 : name ≠ "status") (h3 : name ∈ st.subscriptions) :
    (processPacket handle packet st).2.2 = [] ∧
    ∀ u, unpackPacket packet (PACKET_FORMATS name) = .ok u →
      processPacket handle packet st = (.err (.keyError "numpy_dtypes"), st, []) := by
  constructor
  · cases hu : unpackPacket packet (PACKET_FORMATS name) with
    | ok u =>
      simp only [processPacket, processPacketWith, h1, hu]
      simp [h3, h2, pyDictGet_numpy_dtypes]
    | err e =>
      simp [processPacket, processPacketWith, h1, hu]
  · intro u hu
    simp only [processPacket, processPacketWith, h1, hu]
    simp [h3, h2, pyDictGet_numpy_dtypes]

theorem C5_numpy_dtypes_keyerror_witness :
    processPacket 26 (List.replicate 10 0) (initState ["telemetry"])
      = (.err (.keyError "numpy_dtypes"), initState ["telemetry"], []) :=
  (C5_numpy_dtypes_keyerror 26 "telemetry" (List.replicate 10 0) (initState ["telemetry"])
    (by decide) (by decide) (by decide)).2 (List.replicate 5 0) (by decide)

/-- C6: feeding the status assembler the two fragments of the record with
key `a` and value 1 yields exactly one callback invocation, with sample
index -1 and that record, and leaves the accumulator empty (the final state
equals the fresh initial state); and any sequence of well-formed fragments
whose appended content never ends in a closing brace yields zero
invocations. -/
theorem C6_status_reassembly :
    processStatusSeq [frag1, frag2] (initState ["status"])
      = (initState ["status"], [.statusRec (-1) [("a", 1)]]) ∧
    ∀ frags : List (List ℤ), (∀ u ∈ frags, fragNoTerm u = true) →
      (processStatusSeq frags (initState ["status"])).2 = [] := by
  constructor
  · decide
  · intro frags h
    exact seq_noterm frags (initState ["status"]) [] h

theorem C6_status_reassembly_witness :
    processStatusSeq [frag1, frag2] (initState ["status"])
      = (initState ["status"], [.statusRec (-1) [("a", 1)]]) ∧
    (processStatusSeq [[1, 97]] (initState ["status"])).2 = [] :=
  ⟨C6_status_reassembly.1, C6_status_reassembly.2 [[1, 97]] (by decide)⟩

/-- C7: the eeg conversion function is `0.48828125 × (raw − 2048)` applied
element-wise; raw 2048 maps to 0 and raw 4095 maps to
`0.48828125 × (4095 − 2048) = 999.51171875`.  All constants are dyadic
rationals and the products fit a single-precision mantissa, so the float
evaluation the code performs is exact and the rational model loses
nothing. -/
theorem C7_eeg_conversion :
    (∀ l : List ℚ, l.map convert_eeg = l.map (fun raw => 0.48828125 * (raw - 2048))) ∧
    convert_eeg 2048 = 0 ∧
    convert_eeg 4095 = 0.48828125 * (4095 - 2048) ∧
    convert_eeg 4095 = 999.51171875 := by
  refine ⟨fun l => rfl, by norm_num [convert_eeg], by norm_num [convert_eeg],
    by norm_num [convert_eeg]⟩

/-- C8: a notification whose mapped stream is not in the handler's
subscription set is decoded but invokes the output callback zero times and
leaves the whole handler state (chunk buffers, sample indices, status
accumulator) unchanged; when the packet decodes, the call also returns
normally. -/
theorem C8_unsubscribed_no_effect (handle : ℕ) (name : String) (packet : List (Fin 256))
    (st : HandlerState) (h1 : HANDLE_NAMES handle = some name)
    (h2 : name ∉ st.subscriptions) :
    (processPacket handle packet st).2.1 = st ∧
    (processPacket handle packet st).2.2 = [] ∧
    ∀ u, unpackPacket packet (PACKET_FORMATS name) = .ok u →
      processPacket handle packet st = (.ok (), st, []) := by
  refine ⟨?_, ?_, ?_⟩
  · cases hu : unpackPacket packet (PACKET_FORMATS name) with
    | ok u =>
      simp only [processPacket, processPacketWith, h1, hu]
      simp [h2]
    | err e =>
      simp [processPacket, processPacketWith, h1, hu]
  · cases hu : unpackPacket packet (PACKET_FORMATS name) with
    | ok u =>
      simp only [processPacket, processPacketWith, h1, hu]
      simp [h2]
    | err e =>
      simp [processPacket, processPacketWith, h1, hu]
  · intro u hu
    simp only [processPacket, processPacketWith, h1, hu]
    simp [h2]

theorem C8_unsubscribed_no_effect_witness :
    processPacket 20 (List.replicate 20 0) (initState ["eeg"])
      = (.ok (), initState ["eeg"], []) :=
  (C8_unsubscribed_no_effect 20 "gyroscope" (List.replicate 20 0) (initState ["eeg"])
    (by decide) (by decide)).2.2 (List.replicate 10 0) (by decide)

/-- C9: on every notification of the subscribed status stream whose packet
decodes and whose `_process_status` call returns normally, `process_packet`
falls into the non-eeg emission branch, assigns the status sample-index
slot, and raises the unbound-local `NameError` on `data` (muse2016.py line
144) — so even a successfully parsed and emitted status record is followed
by an unhandled error within the same call.  The statement quantifies over
every evaluator behavior `ev` (`ast.literal_eval` composed with any
encoding of its results into the record type), so the side condition
"`_process_status` returns normally" is exactly the program's, never the
executable model's: at a fragment the real evaluator rejects,
`processStatusWith ev` errs for that `ev` and the hypothesis does not
apply, while every real normal return — emitting or not — is covered. -/
theorem C9_status_namerror (ev : List Char → Option (List (String × ℤ)))
    (handle : ℕ) (packet : List (Fin 256)) (st st1 : HandlerState)
    (u : List ℤ) (ems : List Emission)
    (h1 : HANDLE_NAMES handle = some "status")
    (h3 : "status" ∈ st.subscriptions)
    (hu : unpackPacket packet (PACKET_FORMATS "status") = .ok u)
    (hps : processStatusWith ev u st = (.ok (), st1, ems)) :
    processPacketWith ev handle packet st
      = (.err (.nameError "data"), { st1 with statusSampleIdx := u.headI }, ems) := by
  simp only [processPacketWith, h1, hu]
  simp [h3, hps]

theorem C9_status_namerror_witness :
    processPacket 14 statusPacket20 (initState ["status"])
      = (.err (.nameError "data"),
         { initState ["status"] with message := ['a'], statusSampleIdx := 1 }, []) := by
  have h := C9_status_namerror literal_eval 14 statusPacket20 (initState ["status"])
    { initState ["status"] with message := ['a'] }
    (1 :: 97 :: List.replicate 18 0) []
    (by decide) (by decide) (by decide) (by decide)
  exact h.trans (by decide)

/-- C10: a status fragment whose declared length field is 0 makes
`_process_status` raise `IndexError` at the terminator check (the fragment's
valid content is empty, so its last-character subscript fails before any
terminator comparison), with no emission and the state unchanged (the
appended content is empty). -/
theorem C10_zero_length_indexerror (rest : List ℤ) (st : HandlerState)
    (hv : ∀ v ∈ rest, 0 ≤ v ∧ v < 0xD800) :
    processStatus (0 :: rest) st = (.err .indexError, st, []) := by
  simp only [processStatus, processStatusWith, pyChrList_ok rest hv]
  simp [pySliceTo]

theorem C10_zero_length_indexerror_witness :
    processStatus (0 :: [97]) (initState ["status"])
      = (.err .indexError, initState ["status"], []) :=
  C10_zero_length_indexerror [97] (initState ["status"]) (by decide)

end Muse2016
